import Mathlib

/-!
Verification of the listing-filtering core of the property-analysis repository.

The embedded code is `MapViewer.get_listings_from_db` from
`src/property_analyzer/display_properties.py` (SQL predicate construction on
lines 101-131 and 168-217, post-query filters on lines 223-259) together with
`convert_interior_size_to_sqft` from `src/property_analyzer/utils.py`
(lines 7-17).

Modelling conventions:
- SQLite numeric values are `ℚ`, dates are day numbers `ℤ`, nullable columns
  are `Option`; a SQL comparison whose operand is NULL is not-true, while an
  explicit `IS NULL` disjunct makes the row pass, exactly as in the generated
  WHERE clauses.
- Python truthiness gates (`if min_bedroom:` etc.) are modelled explicitly:
  `none` and `some 0` both disable the corresponding condition.
- `geopy.distance.distance(...).meters` (the geodesic distance) is modelled as
  an abstract function `geodesic_meters` carried by the viewer state.
- `shapely Polygon.contains(Point)` is modelled by `polygonContains`: true
  exactly on the interior of the polygon, false on the boundary and outside
  (shapely `contains` requires the point to lie in the interior, so a point on
  the boundary is not contained).
-/

/-- One row of the `Listings` table, restricted to the columns the filtering
logic of `get_listings_from_db` reads.  Nullable columns are `Option`.
`Building_StoriesTotal` holds the value of `CAST (Building_StoriesTotal AS INTEGER)`.
`hasFutureOpenHouse` abstracts the `open_house_in_future` CTE join of
lines 177-204: it is true when the listing has an open house whose start date
is today or later. -/
structure Listing where
  MlsNumber : ℤ
  Property_Address_AddressText : String
  Property_Address_Latitude : ℚ
  Property_Address_Longitude : ℚ
  Property_PriceUnformattedValue : Option ℚ
  Property_ZoningType : Option String
  Property_Type : Option String
  Property_Parking : Option String
  Property_OwnershipType : Option String
  Building_StoriesTotal : Option ℤ
  Building_Bedrooms : Option ℚ
  Building_SizeInterior : Option String
  ComputedNewBuild : Option Bool
  ComputedSQFT : Option ℚ
  ComputedPricePerSQFT : Option ℚ
  ComputedLastUpdated : Option ℤ
  PriceChangeDateUTC : Option ℤ
  hasFutureOpenHouse : Bool
deriving DecidableEq

/-- The keyword arguments of `get_listings_from_db` (lines 76-96), with the
source's default values.  Optional integer parameters are `Option ℤ`
(`min_metro_distance_meters` is `Option ℚ` since it is compared against a
float distance). `limit : int = -1` is kept as `ℤ`. -/
structure Criteria where
  min_price : ℚ := 100000
  max_price : ℚ := 10000000
  must_have_int_sqft : Bool := false
  must_have_price_change : Bool := false
  no_new_listings : Bool := true
  no_vacant_land : Bool := true
  no_high_rise : Bool := true
  within_area_of_interest : Bool := true
  min_metro_distance_meters : Option ℚ := none
  min_bedroom : Option ℤ := none
  min_sqft : Option ℤ := none
  max_price_per_sqft : Option ℤ := none
  last_updated_days_ago : Option ℤ := some 7
  has_garage : Bool := false
  has_parking_details : Bool := false
  has_upcoming_openhouse : Bool := false
  no_undividied : Bool := false
  limit : ℤ := -1
deriving DecidableEq

/-- The state of a `MapViewer` that `get_listings_from_db` consults:
the `Listings` table of `self.db_file`, `self.area_of_interest` (a possibly
empty vertex list; Python `None` and `[]` behave identically in the truthiness
gate of line 223 and are both modelled by `[]`), `self.points_of_interest`
(line 55-61), the geodesic distance function of the `geopy` library
(line 239), and the current date (SQLite `DATE('now')`) as a day number. -/
structure MapViewer where
  listings : List Listing
  area_of_interest : List (ℚ × ℚ) := []
  points_of_interest : List (ℚ × ℚ) := []
  geodesic_meters : ℚ × ℚ → ℚ × ℚ → ℚ := fun _ _ => 0
  now : ℤ := 0

/-- Python truthiness of an optional numeric value: `None` and `0` are falsy. -/
def truthyQ : Option ℚ → Bool
  | none => false
  | some q => decide (q ≠ 0)

/-- Day number of the date literal `'2023-11-19'` of line 115 (days since
1970-01-01). -/
def priceChangeCutoffDay : ℤ := 19680

/-- Price band of the WHERE clause, lines 168-170:
`Property_PriceUnformattedValue > min_price AND Property_PriceUnformattedValue < max_price`.
A NULL price makes both comparisons not-true. -/
def priceCond (minp maxp : ℚ) (l : Listing) : Bool :=
  match l.Property_PriceUnformattedValue with
  | none => false
  | some p => decide (minp < p) && decide (p < maxp)

/-- Condition of lines 102-105:
`(Property_ZoningType IS NULL OR Property_ZoningType NOT IN ('Agricultural'))
AND Property_Type != 'Vacant Land'`. -/
def vacantLandCond (l : Listing) : Bool :=
  (match l.Property_ZoningType with
   | none => true
   | some z => z ≠ "Agricultural")
  &&
  (match l.Property_Type with
   | none => false
   | some t => t ≠ "Vacant Land")

/-- Condition of lines 106-107:
`Building_StoriesTotal IS NULL OR CAST (Building_StoriesTotal AS INTEGER) < 5`. -/
def storiesCond (l : Listing) : Bool :=
  match l.Building_StoriesTotal with
  | none => true
  | some s => decide (s < 5)

/-- Condition of lines 108-109: `ComputedNewBuild IS NOT TRUE`
(NULL passes, since NULL is not TRUE). -/
def newBuildCond (l : Listing) : Bool :=
  match l.ComputedNewBuild with
  | some true => false
  | _ => true

/-- Condition of lines 112-116:
`PriceChangeDateUTC IS NOT NULL AND DATE(PriceChangeDateUTC) > DATE('2023-11-19')`. -/
def priceChangeCond (l : Listing) : Bool :=
  match l.PriceChangeDateUTC with
  | none => false
  | some d => decide (priceChangeCutoffDay < d)

/-- Condition of lines 117-118, including the Python truthiness gate
`if min_bedroom:` — the SQL fragment
`Building_Bedrooms IS NULL OR Building_Bedrooms >= {min_bedroom}` is only
appended when `min_bedroom` is neither `None` nor `0`. -/
def minBedroomCond : Option ℤ → Listing → Bool
  | none, _ => true
  | some b, l =>
    if b = 0 then true else
      match l.Building_Bedrooms with
      | none => true
      | some n => decide ((b : ℚ) ≤ n)

/-- Condition of lines 119-120, gated on truthiness:
`DATE(ComputedLastUpdated) >= DATE('now', '-{n} day')`.
A NULL `ComputedLastUpdated` makes the comparison not-true. -/
def lastUpdatedCond (now : ℤ) : Option ℤ → Listing → Bool
  | none, _ => true
  | some n, l =>
    if n = 0 then true else
      match l.ComputedLastUpdated with
      | none => false
      | some d => decide (now - n ≤ d)

/-- Condition of lines 121-122, gated on truthiness:
`ComputedSQFT IS NULL OR ComputedSQFT >= {min_sqft}`. -/
def minSqftCond : Option ℤ → Listing → Bool
  | none, _ => true
  | some s, l =>
    if s = 0 then true else
      match l.ComputedSQFT with
      | none => true
      | some q => decide ((s : ℚ) ≤ q)

/-- Condition of lines 123-124, gated on truthiness:
`ComputedPricePerSQFT IS NULL OR ComputedPricePerSQFT <= {max_price_per_sqft}`. -/
def maxPricePerSqftCond : Option ℤ → Listing → Bool
  | none, _ => true
  | some m, l =>
    if m = 0 then true else
      match l.ComputedPricePerSQFT with
      | none => true
      | some q => decide (q ≤ (m : ℚ))

/-- Checks that `needle` is a prefix of `hay` (character lists). -/
def listStartsWith : List Char → List Char → Bool
  | [], _ => true
  | _ :: _, [] => false
  | a :: as, b :: bs => (a == b) && listStartsWith as bs

/-- Checks that `needle` occurs somewhere inside `hay` (character lists). -/
def listHasSubstr (needle : List Char) : List Char → Bool
  | [] => needle.isEmpty
  | c :: rest => listStartsWith needle (c :: rest) || listHasSubstr needle rest

/-- SQLite `Property_Parking LIKE '%Garage%'` of line 126; `LIKE` is
case-insensitive for ASCII, modelled by lowercasing both sides. -/
def parkingLikeGarage (s : String) : Bool :=
  listHasSubstr ("garage".toList) (s.toList.map Char.toLower)

/-- Conditions of lines 125-128: `if has_garage: ... LIKE '%Garage%'`
`elif has_parking_details: Property_Parking IS NOT NULL`. -/
def parkingCond (has_garage has_parking_details : Bool) (l : Listing) : Bool :=
  if has_garage then
    match l.Property_Parking with
    | none => false
    | some s => parkingLikeGarage s
  else if has_parking_details then l.Property_Parking.isSome
  else true

/-- Condition of lines 129-130:
`Property_OwnershipType IS NULL OR Property_OwnershipType != 'Undivided Co-ownership'`. -/
def undividedCond (l : Listing) : Bool :=
  match l.Property_OwnershipType with
  | none => true
  | some o => o ≠ "Undivided Co-ownership"

/-- The complete WHERE predicate of the executed query (lines 168-212): the
price band, every condition appended to `conditions`, and — in the
`has_upcoming_openhouse` branch — the restriction to listings with a present
or future open house provided by the CTE join. -/
def queryPred (now : ℤ) (c : Criteria) (l : Listing) : Bool :=
  priceCond c.min_price c.max_price l &&
  ((if c.no_vacant_land then vacantLandCond l else true) &&
  ((if c.no_high_rise then storiesCond l else true) &&
  ((if c.no_new_listings then newBuildCond l else true) &&
  ((if c.must_have_int_sqft then l.Building_SizeInterior.isSome else true) &&
  ((if c.must_have_price_change then priceChangeCond l else true) &&
  (minBedroomCond c.min_bedroom l &&
  (lastUpdatedCond now c.last_updated_days_ago l &&
  (minSqftCond c.min_sqft l &&
  (maxPricePerSqftCond c.max_price_per_sqft l &&
  (parkingCond c.has_garage c.has_parking_details l &&
  ((if c.no_undividied then undividedCond l else true) &&
  (if c.has_upcoming_openhouse then l.hasFutureOpenHouse else true))))))))))))

/-- Edge list of a polygon given by its vertex list: consecutive pairs plus
the closing edge from the last vertex back to the first (shapely closes the
ring implicitly). -/
def polyEdges (poly : List (ℚ × ℚ)) : List ((ℚ × ℚ) × (ℚ × ℚ)) :=
  match poly with
  | [] => []
  | p :: ps => poly.zip (ps ++ [p])

/-- Whether point `p` lies on the closed segment from `a` to `b`:
collinear (zero cross product) and inside the bounding box. -/
def onSegment (a b p : ℚ × ℚ) : Bool :=
  decide ((b.1 - a.1) * (p.2 - a.2) = (b.2 - a.2) * (p.1 - a.1)) &&
  decide (min a.1 b.1 ≤ p.1) && decide (p.1 ≤ max a.1 b.1) &&
  decide (min a.2 b.2 ≤ p.2) && decide (p.2 ≤ max a.2 b.2)

/-- Whether a rightward horizontal ray from `p` crosses the edge `e`
(standard even-odd ray casting with the half-open vertex rule). -/
def edgeCrosses (p : ℚ × ℚ) (e : (ℚ × ℚ) × (ℚ × ℚ)) : Bool :=
  (decide (p.2 < e.1.2) != decide (p.2 < e.2.2)) &&
  decide (p.1 < e.1.1 + (e.2.1 - e.1.1) * (p.2 - e.1.2) / (e.2.2 - e.1.2))

/-- Whether `p` lies on the boundary of the polygon. -/
def onPolygonBoundary (poly : List (ℚ × ℚ)) (p : ℚ × ℚ) : Bool :=
  (polyEdges poly).any (fun e => onSegment e.1 e.2 p)

/-- Model of `shapely Polygon(poly).contains(Point(p))` of line 226: true
exactly when `p` lies in the interior of the polygon, so a point on the
boundary yields `false` (shapely `contains` demands an interior point). -/
def polygonContains (poly : List (ℚ × ℚ)) (p : ℚ × ℚ) : Bool :=
  decide ((polyEdges poly).countP (edgeCrosses p) % 2 = 1) &&
  !(onPolygonBoundary poly p)

/-- Whether the character list is a digit `0`-`9`. -/
def isDigitCh (c : Char) : Bool := decide ('0' ≤ c) && decide (c ≤ '9')

/-- Whether the character is a digit `5`-`9`. -/
def isHighDigit (c : Char) : Bool := decide ('5' ≤ c) && decide (c ≤ '9')

/-- Matcher for the group-and-suffix part `([5-9]\d{2}|\d{4})\|` of the
high-rise regex of line 255, applied right after the literal `|#`. -/
def unitNumberMatch : List Char → Bool
  | a :: b :: c :: rest =>
    (isHighDigit a && isDigitCh b && isDigitCh c &&
      (match rest with
       | '|' :: _ => true
       | _ => false))
    ||
    (isDigitCh a && isDigitCh b && isDigitCh c &&
      (match rest with
       | d :: '|' :: _ => isDigitCh d
       | _ => false))
  | _ => false

/-- Whether the regex `\|#([5-9]\d{2}|\d{4})\|` matches at the head of the
character list. -/
def highRiseAt : List Char → Bool
  | '|' :: '#' :: rest => unitNumberMatch rest
  | _ => false

/-- Model of `re.search` for the high-rise pattern: does the pattern match at
some position of the character list? -/
def searchHighRise : List Char → Bool
  | [] => false
  | c :: rest => highRiseAt (c :: rest) || searchHighRise rest

/-- Model of `re.search(r"\|#([5-9]\d{2}|\d{4})\|", s)` of line 255, as a
boolean: true when the address text contains a unit marker `|#` followed by a
3-digit number whose first digit is 5-9, or by a 4-digit number, and the
closing `|`. -/
def highRiseSearch (s : String) : Bool := searchHighRise s.toList

/-- Rows returned by the executed bulk query before the `LIMIT` clause:
the `Listings` table filtered by the WHERE predicate, in table order. -/
def sqlFiltered (v : MapViewer) (c : Criteria) : List Listing :=
  v.listings.filter (queryPred v.now c)

/-- Rows returned by the query with the `LIMIT` clause of lines 214-215
applied: no clause when `limit = -1`; SQLite treats other negative limits as
unbounded; a nonnegative limit keeps the first `limit` rows. -/
def limited (v : MapViewer) (c : Criteria) : List Listing :=
  if c.limit = -1 then sqlFiltered v c
  else if c.limit < 0 then sqlFiltered v c
  else (sqlFiltered v c).take c.limit.toNat

/-- Post-query area-of-interest filter of lines 223-232: applied only when
`within_area_of_interest` is set and the polygon is truthy (non-empty); keeps
listings whose `(latitude, longitude)` point the polygon contains. -/
def areaFiltered (v : MapViewer) (c : Criteria) : List Listing :=
  if c.within_area_of_interest && !v.area_of_interest.isEmpty then
    (limited v c).filter (fun l =>
      polygonContains v.area_of_interest
        (l.Property_Address_Latitude, l.Property_Address_Longitude))
  else limited v c

/-- Post-query transit-proximity filter of lines 234-250: applied whenever
`min_metro_distance_meters` is truthy; keeps listings having some point of
interest at geodesic distance strictly below the threshold.  With an empty
`points_of_interest` list the `any` is false for every listing. -/
def metroFiltered (v : MapViewer) (c : Criteria) : List Listing :=
  if truthyQ c.min_metro_distance_meters then
    (areaFiltered v c).filter (fun l =>
      v.points_of_interest.any (fun poi =>
        decide (v.geodesic_meters
          (l.Property_Address_Latitude, l.Property_Address_Longitude) poi
          < c.min_metro_distance_meters.getD 0)))
  else areaFiltered v c

/-- The full pipeline of `get_listings_from_db` (lines 76-261): bulk query,
then the area-of-interest, transit-proximity, and high-rise-regex filters in
source order; the final regex filter drops listings whose address text
matches the high-rise pattern. -/
def get_listings_from_db (v : MapViewer) (c : Criteria) : List Listing :=
  if c.no_high_rise then
    (metroFiltered v c).filter (fun l =>
      !highRiseSearch l.Property_Address_AddressText)
  else metroFiltered v c

/-- Python `s.split(" ")` on character lists (also used with `'.'` for the
decimal point): splits at every occurrence of the separator, keeping empty
chunks, and yields one chunk for the empty input. -/
def splitOnChar (sep : Char) : List Char → List (List Char)
  | [] => [[]]
  | c :: rest =>
    let r := splitOnChar sep rest
    if c == sep then [] :: r
    else
      match r with
      | g :: gs => (c :: g) :: gs
      | [] => [[c]]

/-- Numeric value of a digit list (most significant first). -/
def natOfDigits (cs : List Char) : ℕ :=
  cs.foldl (fun a c => a * 10 + (c.toNat - 48)) 0

/-- Model of Python `float(s)` on the nonnegative decimal literals that occur
in `Building_SizeInterior` strings: an optional fractional part separated by
one decimal point, at least one digit overall; anything else raises
`ValueError`, modelled by `none`. -/
def parseFloatStr (cs : List Char) : Option ℚ :=
  match splitOnChar '.' cs with
  | [i] =>
    if i.isEmpty || !i.all isDigitCh then none
    else some (natOfDigits i : ℚ)
  | [i, f] =>
    if (i.isEmpty && f.isEmpty) || !i.all isDigitCh || !f.all isDigitCh then none
    else some ((natOfDigits i : ℚ) + (natOfDigits f : ℚ) / (10 ^ f.length))
  | _ => none

/-- Embedding of `convert_interior_size_to_sqft` (utils.py lines 7-17):
split on spaces, parse the first chunk as a float (a failed parse or a
missing second chunk raises in Python, modelled by `none`), return the number
for `sqft`, the number times `10.764` for `m2`, and `0` for any other unit. -/
def convert_interior_size_to_sqft (building_size_interior : String) : Option ℚ :=
  match splitOnChar ' ' building_size_interior.toList with
  | n :: u :: _ =>
    match parseFloatStr n with
    | none => none
    | some q =>
      if u = "sqft".toList then some q
      else if u = "m2".toList then some (q * (10764 / 1000))
      else some 0
  | _ => none

/-- A square area-of-interest polygon with vertices listed the way
`self.area_of_interest` stores them (latitude first). -/
def aoiSquare : List (ℚ × ℚ) := [(0, 0), (0, 4), (4, 4), (4, 0)]

/-- A listing that satisfies every default filter of `get_listings_from_db`:
benign zoning, 2 stories, address with no high-rise unit marker, price inside
the default band, updated on the query day. Its coordinate `(1, 2)` lies in
the interior of `aoiSquare`. -/
def goodListing : Listing := {
  MlsNumber := 1
  Property_Address_AddressText := "9999 Rue Exemple"
  Property_Address_Latitude := 1
  Property_Address_Longitude := 2
  Property_PriceUnformattedValue := some 500000
  Property_ZoningType := none
  Property_Type := some "House"
  Property_Parking := none
  Property_OwnershipType := none
  Building_StoriesTotal := some 2
  Building_Bedrooms := some 3
  Building_SizeInterior := some "1000 sqft"
  ComputedNewBuild := none
  ComputedSQFT := some 1000
  ComputedPricePerSQFT := some 500
  ComputedLastUpdated := some 0
  PriceChangeDateUTC := none
  hasFutureOpenHouse := false }

/-- The default criteria: exactly the default keyword arguments of
`get_listings_from_db` (lines 76-96). -/
def baseCrit : Criteria := {}

/-- The `goodListing` moved onto the boundary of `aoiSquare`: the point
`(0, 2)` lies on the edge from `(0, 0)` to `(0, 4)`. -/
def boundaryListing : Listing :=
  { goodListing with Property_Address_Latitude := 0, Property_Address_Longitude := 2 }

/-- Viewer whose single listing sits exactly on the boundary of the
configured area of interest. -/
def v1 : MapViewer := { listings := [boundaryListing], area_of_interest := aoiSquare }

/-- Viewer whose single listing sits in the interior of the configured area
of interest. -/
def v1w : MapViewer := { listings := [goodListing], area_of_interest := aoiSquare }

/-- Viewer with no area of interest and no transit points loaded. -/
def v3 : MapViewer := { listings := [goodListing] }

/-- Criteria asking for listings within 2000 meters of a transit point. -/
def c3with : Criteria := { min_metro_distance_meters := some 2000 }

/-- Viewer with one transit point and a geodesic distance function that
returns 100 meters for every pair of coordinates. -/
def v4 : MapViewer :=
  { listings := [goodListing], points_of_interest := [(3, 3)],
    geodesic_meters := fun _ _ => 100 }

/-- Criteria asking for listings within 500 meters of a transit point. -/
def c4crit : Criteria := { min_metro_distance_meters := some 500 }

/-- A listing with unknown bedroom count, unknown size and unknown price per
square foot. -/
def nullFieldListing : Listing :=
  { goodListing with Building_Bedrooms := none, ComputedSQFT := none, ComputedPricePerSQFT := none }

/-- Criteria with a maximum price per square foot of 1, which `goodListing`
(500 per square foot) fails. -/
def c8tight : Criteria := { max_price_per_sqft := some 1 }

/-- Criteria with an inverted price band: `min_price` (500000) is not below
`max_price` (400000). -/
def c9crit : Criteria := { min_price := 500000, max_price := 400000 }

theorem mem_limited_of_mem_area {v : MapViewer} {c : Criteria} {l : Listing}
    (h : l ∈ areaFiltered v c) : l ∈ limited v c := by
  unfold areaFiltered at h
  split at h
  · exact (List.mem_filter.mp h).1
  · exact h

theorem mem_area_of_mem_metro {v : MapViewer} {c : Criteria} {l : Listing}
    (h : l ∈ metroFiltered v c) : l ∈ areaFiltered v c := by
  unfold metroFiltered at h
  split at h
  · exact (List.mem_filter.mp h).1
  · exact h

theorem mem_metro_of_mem_result {v : MapViewer} {c : Criteria} {l : Listing}
    (h : l ∈ get_listings_from_db v c) : l ∈ metroFiltered v c := by
  unfold get_listings_from_db at h
  split at h
  · exact (List.mem_filter.mp h).1
  · exact h

theorem mem_sql_of_mem_limited {v : MapViewer} {c : Criteria} {l : Listing}
    (h : l ∈ limited v c) : l ∈ sqlFiltered v c := by
  unfold limited at h
  split at h
  · exact h
  · split at h
    · exact h
    · exact List.mem_of_mem_take h

theorem queryPred_of_mem_result {v : MapViewer} {c : Criteria} {l : Listing}
    (h : l ∈ get_listings_from_db v c) : queryPred v.now c l = true :=
  (List.mem_filter.mp
    (mem_sql_of_mem_limited
      (mem_limited_of_mem_area (mem_area_of_mem_metro (mem_metro_of_mem_result h))))).2

theorem polygonContains_interior : polygonContains aoiSquare (1, 2) = true := by
  norm_num [polygonContains, aoiSquare, polyEdges, onPolygonBoundary, onSegment,
    edgeCrosses, List.countP, List.countP.go]

theorem polygonContains_boundary : polygonContains aoiSquare (0, 2) = false := by
  norm_num [polygonContains, aoiSquare, polyEdges, onPolygonBoundary, onSegment,
    edgeCrosses, List.countP, List.countP.go]

theorem onPolygonBoundary_eval : onPolygonBoundary aoiSquare (0, 2) = true := by
  norm_num [onPolygonBoundary, aoiSquare, polyEdges, onSegment]

theorem aoiSquare_ne : (aoiSquare = []) = False := by simp [aoiSquare]

/-- C1, counterexample: the claim asserts that a listing whose coordinate
lies exactly on the boundary of the configured polygon is retained.  In the
code the shapely `contains` test is strict: for the store `v1`, whose single
listing sits on the boundary of the polygon and passes the whole SQL
predicate, `get_listings_from_db` returns the empty list, so the boundary
listing is dropped, not retained. -/
theorem C1_counterexample :
    onPolygonBoundary v1.area_of_interest
      (boundaryListing.Property_Address_Latitude, boundaryListing.Property_Address_Longitude) = true
    ∧ boundaryListing ∈ v1.listings
    ∧ queryPred v1.now baseCrit boundaryListing = true
    ∧ baseCrit.within_area_of_interest = true
    ∧ get_listings_from_db v1 baseCrit = [] := by
  refine ⟨onPolygonBoundary_eval, by decide, by decide, rfl, ?_⟩
  have h : queryPred v1.now baseCrit boundaryListing = true := by decide
  simp [get_listings_from_db, metroFiltered, areaFiltered, limited, sqlFiltered, truthyQ,
    v1, baseCrit, boundaryListing, goodListing, List.filter, h, polygonContains_boundary,
    aoiSquare_ne]

/-- C1, amended: with `within_area_of_interest` set and a non-empty polygon,
every listing returned by `get_listings_from_db` has its coordinate strictly
in the interior of the polygon (the shapely `contains` predicate); boundary
points are excluded rather than retained. -/
theorem C1_amended (v : MapViewer) (c : Criteria) (l : Listing)
    (hw : c.within_area_of_interest = true) (hne : v.area_of_interest ≠ [])
    (hl : l ∈ get_listings_from_db v c) :
    polygonContains v.area_of_interest
      (l.Property_Address_Latitude, l.Property_Address_Longitude) = true := by
  have ha : l ∈ areaFiltered v c :=
    mem_area_of_mem_metro (mem_metro_of_mem_result hl)
  unfold areaFiltered at ha
  rw [hw] at ha
  have hne2 : v.area_of_interest.isEmpty = false := by
    simpa [List.isEmpty_iff] using hne
  rw [hne2] at ha
  simp only [Bool.not_false, Bool.and_true, if_true] at ha
  exact (List.mem_filter.mp ha).2

/-- C1, witness for the amended theorem at the store `v1w`, whose single
listing lies in the interior of the square polygon. -/
theorem C1_witness :
    polygonContains v1w.area_of_interest
      (goodListing.Property_Address_Latitude, goodListing.Property_Address_Longitude) = true := by
  refine C1_amended v1w baseCrit goodListing rfl (by decide) ?_
  have h : queryPred v1w.now baseCrit goodListing = true := by decide
  simp [get_listings_from_db, metroFiltered, areaFiltered, limited, sqlFiltered, truthyQ,
    v1w, baseCrit, goodListing, List.filter, h, polygonContains_interior, aoiSquare_ne,
    highRiseSearch, searchHighRise, highRiseAt, unitNumberMatch]

/-- C2 (code bug): `convert_interior_size_to_sqft` handles the two
recognized units as claimed — `"1000 sqft"` yields `1000` and `"100 m2"`
yields `1076.4` — but on the unrecognized unit `"100 xyz"` it silently
returns `0` instead of signalling a parse failure (the `none` it uses for
genuinely unparseable inputs). -/
theorem C2_evaluation :
    convert_interior_size_to_sqft "1000 sqft" = some 1000
    ∧ convert_interior_size_to_sqft "100 m2" = some (5382 / 5)
    ∧ convert_interior_size_to_sqft "100 xyz" = some 0
    ∧ convert_interior_size_to_sqft "100 xyz" ≠ none := by
  refine ⟨by decide, ?_, by decide, by decide⟩
  have h1 : convert_interior_size_to_sqft "100 m2" = some ((100 : ℚ) * (10764 / 1000)) := rfl
  rw [h1]
  norm_num

/-- C3, counterexample: the claim asserts that with transit points absent
the proximity step is skipped, so criteria with `min_metro_distance_meters`
set return the same listings as criteria without it.  In the code the filter
still runs and `any` over the empty point list is false for every listing:
on the store `v3` (no transit points, one listing that passes everything
else) the criteria with the threshold return `[]` while the same criteria
without it return the listing. -/
theorem C3_counterexample :
    v3.points_of_interest = []
    ∧ get_listings_from_db v3 c3with = []
    ∧ get_listings_from_db v3 { c3with with min_metro_distance_meters := none } = [goodListing] := by
  refine ⟨rfl, by decide, by decide⟩

/-- C3, amended: when `min_metro_distance_meters` is set (truthy) and the
loaded transit-point list is empty, the proximity filter removes every
listing: `get_listings_from_db` returns the empty list, regardless of the
other criteria and of the store contents. -/
theorem C3_amended (v : MapViewer) (c : Criteria)
    (hp : v.points_of_interest = [])
    (ht : truthyQ c.min_metro_distance_meters = true) :
    get_listings_from_db v c = [] := by
  have hm : metroFiltered v c = [] := by
    unfold metroFiltered
    rw [ht, if_pos rfl, hp]
    simp
  unfold get_listings_from_db
  rw [hm]
  cases c.no_high_rise <;> simp

/-- C3, witness for the amended theorem: the store `v3` with the threshold
criteria returns the empty list. -/
theorem C3_witness : get_listings_from_db v3 c3with = [] :=
  C3_amended v3 c3with rfl (by decide)

/-- C4 (confirmed): with `min_metro_distance_meters = D` set (truthy) and a
non-empty transit-point list, every listing returned by
`get_listings_from_db` has at least one transit point whose distance — the
`geodesic_meters` function modelling geopy's ellipsoidal distance — from the
listing's coordinate is strictly below `D`. -/
theorem C4_proximity (v : MapViewer) (c : Criteria) (d : ℚ) (l : Listing)
    (hd : c.min_metro_distance_meters = some d) (hd0 : d ≠ 0)
    (_hpois : v.points_of_interest ≠ [])
    (hl : l ∈ get_listings_from_db v c) :
    ∃ poi ∈ v.points_of_interest,
      v.geodesic_meters
        (l.Property_Address_Latitude, l.Property_Address_Longitude) poi < d := by
  have hm : l ∈ metroFiltered v c := mem_metro_of_mem_result hl
  have ht : truthyQ c.min_metro_distance_meters = true := by
    rw [hd]
    simp [truthyQ, hd0]
  unfold metroFiltered at hm
  rw [ht, if_pos rfl] at hm
  have hp := (List.mem_filter.mp hm).2
  rw [List.any_eq_true] at hp
  obtain ⟨poi, hpmem, hplt⟩ := hp
  refine ⟨poi, hpmem, ?_⟩
  have hlt := of_decide_eq_true hplt
  rw [hd] at hlt
  simpa using hlt

/-- C4, witness at the store `v4`: its distance function returns 100 meters
for every pair, below the 500 meter threshold. -/
theorem C4_witness :
    ∃ poi ∈ v4.points_of_interest,
      v4.geodesic_meters
        (goodListing.Property_Address_Latitude, goodListing.Property_Address_Longitude)
        poi < 500 :=
  C4_proximity v4 c4crit 500 goodListing rfl (by norm_num) (by decide) (by decide)

/-- C5 (confirmed): every listing returned by `get_listings_from_db` has a
non-NULL price lying strictly between `min_price` and `max_price`, matching
the strict `>` and `<` of the generated WHERE clause. -/
theorem C5_price_band (v : MapViewer) (c : Criteria) (l : Listing)
    (hl : l ∈ get_listings_from_db v c) :
    ∃ p, l.Property_PriceUnformattedValue = some p
      ∧ c.min_price < p ∧ p < c.max_price := by
  have hq := queryPred_of_mem_result hl
  simp only [queryPred, Bool.and_eq_true] at hq
  have hp := hq.1
  unfold priceCond at hp
  cases hpv : l.Property_PriceUnformattedValue with
  | none =>
    rw [hpv] at hp
    exact absurd hp (by simp)
  | some p =>
    rw [hpv] at hp
    simp only [Bool.and_eq_true, decide_eq_true_eq] at hp
    exact ⟨p, rfl, hp.1, hp.2⟩

/-- C5, witness: the store `v3` with the default criteria returns
`goodListing`, whose price 500000 lies strictly inside the default band. -/
theorem C5_witness :
    ∃ p, goodListing.Property_PriceUnformattedValue = some p
      ∧ baseCrit.min_price < p ∧ p < baseCrit.max_price :=
  C5_price_band v3 baseCrit goodListing (by decide)

/-- C6 (confirmed): with `no_high_rise` set, every returned listing has an
unknown story count or fewer than 5 stories, and its address text does not
match the high-rise unit pattern; the scenario strings behave as claimed:
`"|#512|"` matches (excluded) while `"|#305|"` does not (retained). -/
theorem C6_high_rise :
    (∀ (v : MapViewer) (c : Criteria) (l : Listing), c.no_high_rise = true →
        l ∈ get_listings_from_db v c →
        (l.Building_StoriesTotal = none ∨ ∃ s, l.Building_StoriesTotal = some s ∧ s < 5)
        ∧ highRiseSearch l.Property_Address_AddressText = false)
    ∧ highRiseSearch "|#512|" = true
    ∧ highRiseSearch "|#305|" = false := by
  refine ⟨?_, by decide, by decide⟩
  intro v c l hh hl
  constructor
  · have hq := queryPred_of_mem_result hl
    simp only [queryPred, Bool.and_eq_true] at hq
    have hs := hq.2.2.1
    rw [hh] at hs
    simp only [if_true] at hs
    unfold storiesCond at hs
    cases hst : l.Building_StoriesTotal with
    | none => exact Or.inl rfl
    | some s =>
      rw [hst] at hs
      exact Or.inr ⟨s, rfl, by simpa using hs⟩
  · have hm := hl
    unfold get_listings_from_db at hm
    rw [hh] at hm
    simp only [if_true] at hm
    have hf := (List.mem_filter.mp hm).2
    simpa using hf

/-- C6, witness: `goodListing` is returned from `v3` under the default
criteria (which set `no_high_rise`), has 2 stories, and its address does not
match the pattern. -/
theorem C6_witness :
    (goodListing.Building_StoriesTotal = none
      ∨ ∃ s, goodListing.Building_StoriesTotal = some s ∧ s < 5)
    ∧ highRiseSearch goodListing.Property_Address_AddressText = false :=
  C6_high_rise.1 v3 baseCrit goodListing rfl (by decide)

/-- C7 (confirmed): each of the three threshold conditions of the WHERE
clause — minimum bedrooms, minimum square feet, maximum price per square
foot — evaluates to true on a listing whose corresponding field is NULL, for
every threshold value: exclusion can only happen on known-and-failing
values. -/
theorem C7_null_optimism (c : Criteria) (l : Listing) :
    (l.Building_Bedrooms = none → minBedroomCond c.min_bedroom l = true)
    ∧ (l.ComputedSQFT = none → minSqftCond c.min_sqft l = true)
    ∧ (l.ComputedPricePerSQFT = none → maxPricePerSqftCond c.max_price_per_sqft l = true) := by
  refine ⟨?_, ?_, ?_⟩
  · intro h
    cases c.min_bedroom with
    | none => rfl
    | some b => simp [minBedroomCond, h]
  · intro h
    cases c.min_sqft with
    | none => rfl
    | some s => simp [minSqftCond, h]
  · intro h
    cases c.max_price_per_sqft with
    | none => rfl
    | some m => simp [maxPricePerSqftCond, h]

/-- C7, witness: a listing with NULL bedrooms, size and price-per-size
passes the three conditions at the thresholds 2, 920 and 660. -/
theorem C7_witness :
    minBedroomCond (some 2) nullFieldListing = true
    ∧ minSqftCond (some 920) nullFieldListing = true
    ∧ maxPricePerSqftCond (some 660) nullFieldListing = true :=
  ⟨(C7_null_optimism
      { baseCrit with min_bedroom := some 2, min_sqft := some 920, max_price_per_sqft := some 660 }
      nullFieldListing).1 rfl,
   (C7_null_optimism
      { baseCrit with min_bedroom := some 2, min_sqft := some 920, max_price_per_sqft := some 660 }
      nullFieldListing).2.1 rfl,
   (C7_null_optimism
      { baseCrit with min_bedroom := some 2, min_sqft := some 920, max_price_per_sqft := some 660 }
      nullFieldListing).2.2 rfl⟩

theorem stage_sublist_filter {l1 l2 : List Listing} (p : Listing → Bool)
    (s : List.Sublist l1 l2) (b : Bool) :
    List.Sublist (if b then l1.filter p else l1) (if b then l2.filter p else l2) := by
  cases b
  · simpa using s
  · simpa using s.filter p

theorem result_sublist (v : MapViewer) (c1 c2 : Criteria)
    (hq : ∀ l, queryPred v.now c1 l = true → queryPred v.now c2 l = true)
    (h1 : c1.limit = -1) (h2 : c2.limit = -1)
    (hw : c1.within_area_of_interest = c2.within_area_of_interest)
    (hm : c1.min_metro_distance_meters = c2.min_metro_distance_meters)
    (hh : c1.no_high_rise = c2.no_high_rise) :
    List.Sublist (get_listings_from_db v c1) (get_listings_from_db v c2) := by
  have hsql : List.Sublist (sqlFiltered v c1) (sqlFiltered v c2) :=
    List.monotone_filter_right _ hq
  have hlim : List.Sublist (limited v c1) (limited v c2) := by
    unfold limited
    rw [h1, h2]
    simpa using hsql
  have harea : List.Sublist (areaFiltered v c1) (areaFiltered v c2) := by
    unfold areaFiltered
    rw [hw]
    exact stage_sublist_filter _ hlim _
  have hmetro : List.Sublist (metroFiltered v c1) (metroFiltered v c2) := by
    unfold metroFiltered
    simp only [hm]
    exact stage_sublist_filter _ harea _
  unfold get_listings_from_db
  rw [hh]
  exact stage_sublist_filter _ hmetro _

theorem priceCond_mono {minp minp2 maxp : ℚ} {l : Listing} (hA : minp ≤ minp2)
    (h : priceCond minp2 maxp l = true) : priceCond minp maxp l = true := by
  cases hp : l.Property_PriceUnformattedValue with
  | none => simp [priceCond, hp] at h
  | some p =>
    simp only [priceCond, hp, Bool.and_eq_true, decide_eq_true_eq] at h ⊢
    exact ⟨lt_of_le_of_lt hA h.1, h.2⟩

theorem minBedroomCond_mono {b b2 : ℤ} {l : Listing} (hb : 0 ≤ b) (hbb : b ≤ b2)
    (h : minBedroomCond (some b2) l = true) : minBedroomCond (some b) l = true := by
  by_cases hb0 : b = 0
  · simp [minBedroomCond, hb0]
  · have hb2 : b2 ≠ 0 := by omega
    cases hbed : l.Building_Bedrooms with
    | none => simp [minBedroomCond, hbed]
    | some n =>
      simp only [minBedroomCond, hbed, if_neg hb0, if_neg hb2, decide_eq_true_eq] at h ⊢
      have hcast : (b : ℚ) ≤ (b2 : ℚ) := by exact_mod_cast hbb
      exact le_trans hcast h

theorem maxPricePerSqftCond_mono {m m2 : ℤ} {l : Listing} (hm : 0 < m) (hmm : m ≤ m2)
    (h : maxPricePerSqftCond (some m) l = true) :
    maxPricePerSqftCond (some m2) l = true := by
  have h0 : m ≠ 0 := by omega
  have h02 : m2 ≠ 0 := by omega
  cases hq : l.ComputedPricePerSQFT with
  | none => simp [maxPricePerSqftCond, hq]
  | some q =>
    simp only [maxPricePerSqftCond, hq, if_neg h0, if_neg h02, decide_eq_true_eq] at h ⊢
    have hcast : (m : ℚ) ≤ (m2 : ℚ) := by exact_mod_cast hmm
    exact le_trans h hcast

theorem queryPred_min_price_mono (now : ℤ) (c : Criteria) {A A2 : ℚ} (hA : A ≤ A2)
    (l : Listing) (h : queryPred now { c with min_price := A2 } l = true) :
    queryPred now { c with min_price := A } l = true := by
  simp only [queryPred, Bool.and_eq_true] at h ⊢
  exact ⟨priceCond_mono hA h.1, h.2⟩

theorem queryPred_min_bedroom_mono (now : ℤ) (c : Criteria) {b b2 : ℤ}
    (hb : 0 ≤ b) (hbb : b ≤ b2) (l : Listing)
    (h : queryPred now { c with min_bedroom := some b2 } l = true) :
    queryPred now { c with min_bedroom := some b } l = true := by
  simp only [queryPred, Bool.and_eq_true] at h ⊢
  obtain ⟨h1, h2, h3, h4, h5, h6, h7, h8⟩ := h
  exact ⟨h1, h2, h3, h4, h5, h6, minBedroomCond_mono hb hbb h7, h8⟩

theorem queryPred_max_pps_mono (now : ℤ) (c : Criteria) {m m2 : ℤ}
    (hm : 0 < m) (hmm : m ≤ m2) (l : Listing)
    (h : queryPred now { c with max_price_per_sqft := some m } l = true) :
    queryPred now { c with max_price_per_sqft := some m2 } l = true := by
  simp only [queryPred, Bool.and_eq_true] at h ⊢
  obtain ⟨h1, h2, h3, h4, h5, h6, h7, h8, h9, h10, h11⟩ := h
  exact ⟨h1, h2, h3, h4, h5, h6, h7, h8, h9, maxPricePerSqftCond_mono hm hmm h10, h11⟩

/-- C8, counterexample: the claim asserts that lowering
`max_price_per_sqft` never increases the number of returned listings.  On
the store `v3`, lowering it from 1 to 0 takes the count from 0 to 1, because
`0` is falsy in Python and disables the filter altogether. -/
theorem C8_counterexample :
    (get_listings_from_db v3 c8tight).length
      < (get_listings_from_db v3 { c8tight with max_price_per_sqft := some 0 }).length := by
  decide

/-- C8, amended: with no LIMIT clause (`limit = -1`) the monotonicity holds
away from the falsy sentinel `0`: raising `min_price` never increases the
count; raising `min_bedroom` within nonnegative values never increases the
count; lowering `max_price_per_sqft` within positive values never increases
the count. -/
theorem C8_amended (v : MapViewer) (c : Criteria) (hlim : c.limit = -1) :
    (∀ A A2 : ℚ, A ≤ A2 →
      (get_listings_from_db v { c with min_price := A2 }).length
        ≤ (get_listings_from_db v { c with min_price := A }).length)
    ∧ (∀ b b2 : ℤ, 0 ≤ b → b ≤ b2 →
      (get_listings_from_db v { c with min_bedroom := some b2 }).length
        ≤ (get_listings_from_db v { c with min_bedroom := some b }).length)
    ∧ (∀ m m2 : ℤ, 0 < m → m ≤ m2 →
      (get_listings_from_db v { c with max_price_per_sqft := some m }).length
        ≤ (get_listings_from_db v { c with max_price_per_sqft := some m2 }).length) := by
  refine ⟨?_, ?_, ?_⟩
  · intro A A2 hA
    exact (result_sublist v _ _ (fun l => queryPred_min_price_mono v.now c hA l)
      hlim hlim rfl rfl rfl).length_le
  · intro b b2 hb hbb
    exact (result_sublist v _ _ (fun l => queryPred_min_bedroom_mono v.now c hb hbb l)
      hlim hlim rfl rfl rfl).length_le
  · intro m m2 hm hmm
    exact (result_sublist v _ _ (fun l => queryPred_max_pps_mono v.now c hm hmm l)
      hlim hlim rfl rfl rfl).length_le

/-- C8, witness for the amended theorem: concrete tightenings on the store
`v3` under the default criteria. -/
theorem C8_witness :
    (get_listings_from_db v3 { baseCrit with min_price := 200000 }).length
      ≤ (get_listings_from_db v3 { baseCrit with min_price := 100000 }).length
    ∧ (get_listings_from_db v3 { baseCrit with min_bedroom := some 2 }).length
      ≤ (get_listings_from_db v3 { baseCrit with min_bedroom := some 1 }).length
    ∧ (get_listings_from_db v3 { baseCrit with max_price_per_sqft := some 600 }).length
      ≤ (get_listings_from_db v3 { baseCrit with max_price_per_sqft := some 700 }).length :=
  ⟨(C8_amended v3 baseCrit rfl).1 100000 200000 (by norm_num),
   (C8_amended v3 baseCrit rfl).2.1 1 2 (by norm_num) (by norm_num),
   (C8_amended v3 baseCrit rfl).2.2 600 700 (by norm_num) (by norm_num)⟩

/-- C9 (code bug): `get_listings_from_db` performs no validation of the
criteria.  With the inverted band `min_price = 500000 ≥ max_price = 400000`
it still builds and executes the query against the store `v3` and returns
the empty list produced by the unsatisfiable price predicate — there is no
fail-fast configuration error. -/
theorem C9_no_fail_fast :
    c9crit.max_price ≤ c9crit.min_price
    ∧ get_listings_from_db v3 c9crit = [] := by
  exact ⟨by decide, by decide⟩

theorem get_listings_congr (v : MapViewer) (c1 c2 : Criteria)
    (hq : ∀ l, queryPred v.now c1 l = queryPred v.now c2 l)
    (hl : c1.limit = c2.limit)
    (hw : c1.within_area_of_interest = c2.within_area_of_interest)
    (hm1 : truthyQ c1.min_metro_distance_meters = truthyQ c2.min_metro_distance_meters)
    (hm2 : c1.min_metro_distance_meters.getD 0 = c2.min_metro_distance_meters.getD 0)
    (hh : c1.no_high_rise = c2.no_high_rise) :
    get_listings_from_db v c1 = get_listings_from_db v c2 := by
  have hsql : sqlFiltered v c1 = sqlFiltered v c2 :=
    List.filter_congr (fun l _ => hq l)
  have hlim : limited v c1 = limited v c2 := by
    unfold limited
    rw [hl, hsql]
  have harea : areaFiltered v c1 = areaFiltered v c2 := by
    unfold areaFiltered
    rw [hw, hlim]
  have hmetro : metroFiltered v c1 = metroFiltered v c2 := by
    unfold metroFiltered
    simp only [hm1, hm2, harea]
  unfold get_listings_from_db
  rw [hh, hmetro]

/-- C10 (confirmed): passing `0` for any of the five truthiness-gated
numeric parameters — `min_bedroom`, `min_sqft`, `max_price_per_sqft`,
`last_updated_days_ago`, `min_metro_distance_meters` — disables that filter
and produces exactly the result of passing `None`, for every store and every
other criteria setting. -/
theorem C10_zero_disables (v : MapViewer) (c : Criteria) :
    get_listings_from_db v { c with min_bedroom := some 0 }
        = get_listings_from_db v { c with min_bedroom := none }
    ∧ get_listings_from_db v { c with min_sqft := some 0 }
        = get_listings_from_db v { c with min_sqft := none }
    ∧ get_listings_from_db v { c with max_price_per_sqft := some 0 }
        = get_listings_from_db v { c with max_price_per_sqft := none }
    ∧ get_listings_from_db v { c with last_updated_days_ago := some 0 }
        = get_listings_from_db v { c with last_updated_days_ago := none }
    ∧ get_listings_from_db v { c with min_metro_distance_meters := some 0 }
        = get_listings_from_db v { c with min_metro_distance_meters := none } := by
  refine ⟨?_, ?_, ?_, ?_, ?_⟩
  · exact get_listings_congr v _ _
      (fun l => by simp [queryPred, minBedroomCond]) rfl rfl rfl rfl rfl
  · exact get_listings_congr v _ _
      (fun l => by simp [queryPred, minSqftCond]) rfl rfl rfl rfl rfl
  · exact get_listings_congr v _ _
      (fun l => by simp [queryPred, maxPricePerSqftCond]) rfl rfl rfl rfl rfl
  · exact get_listings_congr v _ _
      (fun l => by simp [queryPred, lastUpdatedCond]) rfl rfl rfl rfl rfl
  · exact get_listings_congr v _ _
      (fun l => rfl) rfl rfl (by simp [truthyQ]) rfl rfl
